import Mathlib

/-
Verification of the AtlasAPI client (atlas.py) against its specification.

The embedding is a shallow translation of the Python source:
  * JSON values are the inductive JVal.
  * Python exceptions are the inductive PyError; each operation returns
    Except PyError together with the updated world state.
  * The network is an oracle inside the state St: the n-th HTTP request of a
    run receives response env n.  Every HTTP request and every time.sleep is
    recorded, in order, in the trace.
  * The unbounded while-loop in setldap is given an explicit fuel parameter;
    PyError.fuelExhausted is an artifact of the embedding standing for a run
    that does not settle within the bound, and never occurs in the theorems
    below, whose status sequences are finite.
-/

/-- JSON values, as decoded by response.json() / json.loads. -/
inductive JVal where
  | null : JVal
  | bool : Bool → JVal
  | num : Int → JVal
  | str : String → JVal
  | arr : List JVal → JVal
  | obj : List (String × JVal) → JVal
deriving Repr

/-- Python exceptions raised by the client, told apart the way the source
tells them apart (the message / exception class). -/
inductive PyError where
  | missingCredentials : PyError
  | missingProject : PyError
  | apiError (status : Nat) (content : String) : PyError
  | keyError (key : String) : PyError
  | typeError : PyError
  | indexError : PyError
  | nameError (nm : String) : PyError
  | fuelExhausted : PyError
deriving Repr, DecidableEq

/-- Field lookup in a JSON object, first match (Python dicts cannot hold
duplicate keys, so first match is exact). -/
def lookupField : List (String × JVal) → String → Option JVal
  | [], _ => none
  | (k, v) :: rest, key => if k = key then some v else lookupField rest key

/-- Subscripting d[k] on a decoded JSON value: KeyError when the key is
absent, TypeError when the value is not an object. -/
def JVal.getKey : JVal → String → Except PyError JVal
  | .obj fields, k =>
    match lookupField fields k with
    | some v => .ok v
    | none => .error (.keyError k)
  | _, _ => .error .typeError

/-- Subscripting with a default, used only in spec-side definitions. -/
def JVal.getKeyD (v : JVal) (k : String) (d : JVal) : JVal :=
  match v.getKey k with
  | .ok x => x
  | .error _ => d

/-- Iterating a JSON value as a list (TypeError when it is not an array). -/
def JVal.asArr : JVal → Except PyError (List JVal)
  | .arr xs => .ok xs
  | _ => .error .typeError

/-- Python equality between a JSON value and a string literal: true exactly
when the value is that string (cross-type == is False in Python). -/
def JVal.eqStr : JVal → String → Bool
  | .str t, u => t == u
  | _, _ => false

mutual
/-- Python structural equality (==) between two decoded JSON values. -/
def JVal.beq : JVal → JVal → Bool
  | .null, .null => true
  | .bool a, .bool b => a == b
  | .num a, .num b => a == b
  | .str a, .str b => a == b
  | .arr a, .arr b => JVal.beqList a b
  | .obj a, .obj b => JVal.beqFields a b
  | _, _ => false

/-- Elementwise equality of JSON arrays. -/
def JVal.beqList : List JVal → List JVal → Bool
  | [], [] => true
  | a :: as, b :: bs => JVal.beq a b && JVal.beqList as bs
  | _, _ => false

/-- Fieldwise equality of JSON objects. -/
def JVal.beqFields : List (String × JVal) → List (String × JVal) → Bool
  | [], [] => true
  | (k1, v1) :: as, (k2, v2) :: bs => k1 == k2 && JVal.beq v1 v2 && JVal.beqFields as bs
  | _, _ => false
end

/-- Python str() of a decoded JSON value, as an f-string renders it.  Only
the string case is exercised by the claims; containers are abbreviated. -/
def JVal.pyStr : JVal → String
  | .str s => s
  | .num n => toString n
  | .bool b => if b then "True" else "False"
  | .null => "None"
  | .arr _ => "<list>"
  | .obj _ => "<dict>"

/-- f-string rendering of a host value that may be Python None. -/
def pyStrOpt : Option String → String
  | none => "None"
  | some h => h

/-- An HTTP response as the client sees it: status code, decoded JSON body,
and the raw text used in error messages. -/
structure HttpResponse where
  status : Nat
  body : JVal
  content : String
deriving Repr

inductive Method where
  | GET : Method
  | POST : Method
  | PATCH : Method
deriving Repr, DecidableEq

/-- An outgoing HTTP request: method, full URL, and the JSON payload for
POST/PATCH (headers carry no information the claims mention). -/
structure Request where
  method : Method
  url : String
  payload : Option JVal
deriving Repr

/-- Observable events of a run: HTTP requests and time.sleep calls. -/
inductive Event where
  | http : Request → Event
  | sleep : Nat → Event
deriving Repr

/-- World state: the response oracle (the n-th request of the run receives
env n), the number of requests issued so far, and the event trace. -/
structure St where
  env : Nat → HttpResponse
  count : Nat
  trace : List Event

/-- Issue one HTTP request: consume the next oracle response, record the
event. -/
def St.request (s : St) (req : Request) : HttpResponse × St :=
  (s.env s.count,
   { s with count := s.count + 1, trace := s.trace ++ [.http req] })

/-- time.sleep(n): recorded in the trace, no other effect. -/
def St.sleepSt (s : St) (n : Nat) : St :=
  { s with trace := s.trace ++ [.sleep n] }

/-- The leading-slash-stripping loop of get/post/patch:
while thisurl[0] == "/": thisurl = thisurl[1:].  On a string holding only
slashes (the empty string included) the subscript raises IndexError. -/
def lstripSlashesAux : List Char → Except PyError (List Char)
  | [] => .error .indexError
  | c :: cs => if c = '/' then lstripSlashesAux cs else .ok (c :: cs)

/-- String form of the stripping loop. -/
def lstrip (thisurl : String) : Except PyError String :=
  match lstripSlashesAux thisurl.data with
  | .error e => .error e
  | .ok cs => .ok (String.mk cs)

/-- Python str.split(sep) for a one-character separator: n separators give
n + 1 (possibly empty) parts. -/
def splitOnChar (sep : Char) : List Char → List (List Char)
  | [] => [[]]
  | c :: cs =>
    let r := splitOnChar sep cs
    if c = sep then [] :: r
    else
      match r with
      | [] => [[c]]
      | g :: gs => (c :: g) :: gs

/-- Python uri.split(","): comma-separated parts of a string. -/
def pySplit (sep : Char) (s : String) : List String :=
  (splitOnChar sep s.data).map (fun g => String.mk g)

/-- Drop a leading scheme through the first occurrence of colon-slash-slash,
when one is present. -/
def dropSchemeAux : List Char → Option (List Char)
  | ':' :: '/' :: '/' :: rest => some rest
  | _ :: rest => dropSchemeAux rest
  | [] => none

def dropScheme (cs : List Char) : List Char :=
  (dropSchemeAux cs).getD cs

/-- Model of urllib3.util.url.parse_url(u).host for the URL shapes an Atlas
mongoURI entry takes: optional scheme, optional userinfo followed by an
at-sign, then host, optional colon-port, optional slash-path.  Returns none
when the host component is empty (urllib3 yields host None there).  IPv6
bracket hosts are not modelled; no claim mentions them. -/
def parse_url_host (u : String) : Option String :=
  let cs := dropScheme u.data
  let auth := cs.takeWhile (fun c => c != '/' && c != '?' && c != '#')
  let hp := (splitOnChar '@' auth).getLastD auth
  let host := hp.takeWhile (fun c => c != ':')
  if host.isEmpty then none else some (String.mk host)

/-- The client object after a successful __init__: the credential pair, the
organization id, the optional default project and the fixed base URL. -/
structure AtlasAPI where
  orgpub : String
  orgpriv : String
  orgid : Option String
  project : Option String
  apiurl : String

/-- AtlasAPI.__init__.  The orgpub/orgpriv parameters are the effective
values after Python default substitution: the caller's argument when one was
given, otherwise the MONGODB_ATLAS_PUBLIC_KEY / MONGODB_ATLAS_PRIVATE_KEY
environment values, so none means neither supplied explicitly nor present in
the environment.  If either is None the constructor raises; otherwise the
arguments are stored unchanged and apiurl is the fixed base URL. -/
def AtlasAPI.init (orgid project orgpub orgpriv : Option String) :
    Except PyError AtlasAPI :=
  match orgpub, orgpriv with
  | some pub, some priv =>
    .ok { orgpub := pub, orgpriv := priv, orgid := orgid, project := project,
          apiurl := "https://cloud.mongodb.com" }
  | _, _ => .error .missingCredentials

/-- AtlasAPI._project: the explicit argument when given, else the stored
default, else None (the source's three branches collapse to this). -/
def AtlasAPI._project (api : AtlasAPI) (project : Option String) : Option String :=
  match project with
  | none => api.project
  | some p => some p

/-- AtlasAPI.post: strip leading slashes (IndexError on an all-slash path),
join with the base URL, issue the POST with the JSON payload, return the
raw response. -/
def AtlasAPI.post (api : AtlasAPI) (thisurl : String) (data : JVal) (s : St) :
    Except PyError HttpResponse × St :=
  match lstrip thisurl with
  | .error e => (.error e, s)
  | .ok u =>
    let (r, s1) := s.request { method := .POST, url := api.apiurl ++ "/" ++ u, payload := some data }
    (.ok r, s1)

/-- AtlasAPI.patch: same path normalization as post, PATCH method. -/
def AtlasAPI.patch (api : AtlasAPI) (thisurl : String) (data : JVal) (s : St) :
    Except PyError HttpResponse × St :=
  match lstrip thisurl with
  | .error e => (.error e, s)
  | .ok u =>
    let (r, s1) := s.request { method := .PATCH, url := api.apiurl ++ "/" ++ u, payload := some data }
    (.ok r, s1)

/-- AtlasAPI.get: same path normalization, GET method, no payload. -/
def AtlasAPI.get (api : AtlasAPI) (thisurl : String) (s : St) :
    Except PyError HttpResponse × St :=
  match lstrip thisurl with
  | .error e => (.error e, s)
  | .ok u =>
    let (r, s1) := s.request { method := .GET, url := api.apiurl ++ "/" ++ u, payload := none }
    (.ok r, s1)

/-- AtlasAPI.getclusters: resolve the project (raising when none is
resolvable, before any request), GET the clusters URL directly (the source
inlines the request here rather than calling self.get), raise ApiError on a
non-200 status carrying the status and raw body, else return the results
field of the decoded body. -/
def AtlasAPI.getclusters (api : AtlasAPI) (project : Option String) (s : St) :
    Except PyError JVal × St :=
  match api._project project with
  | none => (.error .missingProject, s)
  | some proj =>
    let url := api.apiurl ++ "/api/atlas/v1.0/groups/" ++ proj ++ "/clusters"
    let (r, s1) := s.request { method := .GET, url := url, payload := none }
    if r.status ≠ 200 then (.error (.apiError r.status r.content), s1)
    else
      match r.body.getKey "results" with
      | .error e => (.error e, s1)
      | .ok v => (.ok v, s1)

/-- The list comprehension of getclusterids: x["id"] for each element. -/
def clusterIds : List JVal → Except PyError (List JVal)
  | [] => .ok []
  | x :: rest =>
    match x.getKey "id" with
    | .error e => .error e
    | .ok idv =>
      match clusterIds rest with
      | .error e => .error e
      | .ok ids => .ok (idv :: ids)

/-- AtlasAPI.getclusterids: same request as getclusters, then projects the
results array to its id fields. -/
def AtlasAPI.getclusterids (api : AtlasAPI) (project : Option String) (s : St) :
    Except PyError (List JVal) × St :=
  match api._project project with
  | none => (.error .missingProject, s)
  | some proj =>
    let url := api.apiurl ++ "/api/atlas/v1.0/groups/" ++ proj ++ "/clusters"
    let (r, s1) := s.request { method := .GET, url := url, payload := none }
    if r.status ≠ 200 then (.error (.apiError r.status r.content), s1)
    else
      match r.body.getKey "results" with
      | .error e => (.error e, s1)
      | .ok v =>
        match v.asArr with
        | .error e => (.error e, s1)
        | .ok xs =>
          match clusterIds xs with
          | .error e => (.error e, s1)
          | .ok ids => (.ok ids, s1)

/-- The loop body of gethosts over the decoded cluster list: skip clusters
whose id differs from the given one (the id subscript is evaluated only when
a cluster id was given, mirroring the short-circuit), split the cluster's
mongoURI on commas, extract each entry's hostname, flatten in order. -/
def hostsOf : List JVal → Option JVal → Except PyError (List (Option String))
  | [], _ => .ok []
  | c :: rest, cluster =>
    let skip : Except PyError Bool :=
      match cluster with
      | none => .ok false
      | some cid =>
        match c.getKey "id" with
        | .error e => .error e
        | .ok idv => .ok (!(JVal.beq idv cid))
    match skip with
    | .error e => .error e
    | .ok true => hostsOf rest cluster
    | .ok false =>
      match c.getKey "mongoURI" with
      | .error e => .error e
      | .ok uriv =>
        match uriv with
        | .str uri =>
          match hostsOf rest cluster with
          | .error e => .error e
          | .ok hs => .ok (((pySplit ',' uri).map parse_url_host) ++ hs)
        | _ => .error .typeError

/-- AtlasAPI.gethosts: calls getclusters with NO project argument (so the
stored default alone decides the project), then extracts the hosts. -/
def AtlasAPI.gethosts (api : AtlasAPI) (cluster : Option JVal) (s : St) :
    Except PyError (List (Option String)) × St :=
  match api.getclusters none s with
  | (.error e, s1) => (.error e, s1)
  | (.ok res, s1) =>
    match res.asArr with
    | .error e => (.error e, s1)
    | .ok clusters =>
      match hostsOf clusters cluster with
      | .error e => (.error e, s1)
      | .ok hs => (.ok hs, s1)

/-- The per-host measurement loop of get_measurement: one GET per host in
order, ApiError aborts on the first non-200 status, bodies accumulate in
call order. -/
def AtlasAPI.measLoop (api : AtlasAPI) (baseurl query : String) :
    List (Option String) → List JVal → St → Except PyError (List JVal) × St
  | [], acc, s => (.ok acc, s)
  | h :: rest, acc, s =>
    let url := baseurl ++ "/" ++ pyStrOpt h ++ ":" ++ toString (27017 : Nat) ++ "/measurements?" ++ query
    match api.get url s with
    | (.error e, s1) => (.error e, s1)
    | (.ok r, s1) =>
      if r.status ≠ 200 then (.error (.apiError r.status r.content), s1)
      else api.measLoop baseurl query rest (acc ++ [r.body]) s1

/-- The all-clusters default branch of get_measurement: for each cluster id,
enumerate its hosts (a fresh gethosts call) and run the measurement loop,
sharing one accumulator. -/
def AtlasAPI.allClustersLoop (api : AtlasAPI) (baseurl query : String) :
    List JVal → List JVal → St → Except PyError (List JVal) × St
  | [], acc, s => (.ok acc, s)
  | cid :: rest, acc, s =>
    match api.gethosts (some cid) s with
    | (.error e, s1) => (.error e, s1)
    | (.ok hs, s1) =>
      match api.measLoop baseurl query hs acc s1 with
      | (.error e, s2) => (.error e, s2)
      | (.ok acc2, s2) => api.allClustersLoop baseurl query rest acc2 s2

/-- AtlasAPI.get_measurement: resolve the project (raising before any
request when none is resolvable); with a host, one GET for that host at
fixed port 27017 returning the body; with a cluster, the per-host loop over
that cluster's hosts; otherwise the loop over every cluster of the resolved
project.  List results are the decoded bodies in request order. -/
def AtlasAPI.get_measurement (api : AtlasAPI) (name granularity period : String)
    (host : Option String) (cluster : Option JVal) (project : Option String)
    (s : St) : Except PyError JVal × St :=
  let port : Nat := 27017
  match api._project project with
  | none => (.error .missingProject, s)
  | some proj =>
    let baseurl := "/api/atlas/v1.0/groups/" ++ proj ++ "/processes"
    let query := "m=" ++ name ++ "&granularity=" ++ granularity ++ "&period=" ++ period
    match host with
    | some h =>
      let url := baseurl ++ "/" ++ h ++ ":" ++ toString port ++ "/measurements?" ++ query
      match api.get url s with
      | (.error e, s1) => (.error e, s1)
      | (.ok r, s1) =>
        if r.status ≠ 200 then (.error (.apiError r.status r.content), s1)
        else (.ok r.body, s1)
    | none =>
      match cluster with
      | some _ =>
        match api.gethosts cluster s with
        | (.error e, s1) => (.error e, s1)
        | (.ok hs, s1) =>
          match api.measLoop baseurl query hs [] s1 with
          | (.error e, s2) => (.error e, s2)
          | (.ok results, s2) => (.ok (.arr results), s2)
      | none =>
        match api.getclusterids (some proj) s with
        | (.error e, s1) => (.error e, s1)
        | (.ok ids, s1) =>
          match api.allClustersLoop baseurl query ids [] s1 with
          | (.error e, s2) => (.error e, s2)
          | (.ok results, s2) => (.ok (.arr results), s2)

/-- The value setldap returns: the failure pair (False, validations) when
verification does not succeed, or the parsed PATCH response body.  The
success constructor mirrors the source's final return statement; in the
model, as in the source, it is unreachable because of the NameError noted
in setldap. -/
inductive SetldapResult where
  | failure (validations : JVal) : SetldapResult
  | success (body : JVal) : SetldapResult
deriving Repr

/-- The verify poll loop of setldap: while the last-read status equals
PENDING, sleep one second, GET the response URL, re-read the status.  The
fuel argument bounds the number of iterations of the source's unbounded
while loop; every finite status sequence is covered by a large enough fuel.
Returns the response and status in scope when the loop exits. -/
def AtlasAPI.pollLoop (api : AtlasAPI) (respurl : String) (r : HttpResponse)
    (status : JVal) : Nat → St → Except PyError (HttpResponse × JVal) × St
  | 0, s =>
    if status.eqStr "PENDING" then (.error .fuelExhausted, s)
    else (.ok (r, status), s)
  | fuel + 1, s =>
    if status.eqStr "PENDING" then
      let s1 := s.sleepSt 1
      match api.get respurl s1 with
      | (.error e, s2) => (.error e, s2)
      | (.ok r2, s2) =>
        match r2.body.getKey "status" with
        | .error e => (.error e, s2)
        | .ok status2 => api.pollLoop respurl r2 status2 fuel s2
    else (.ok (r, status), s)

/-- AtlasAPI.setldap: POST the verify request, read requestId and status
from its body, poll while PENDING, and on a non-SUCCESS final status return
the failure pair with the validations field of the last response.  On
SUCCESS the source builds the PATCH body with the bare name true (atlas.py
lines 236-237), which is not defined in Python, so a NameError is raised
while constructing that dict, before any PATCH request is issued; the PATCH
call, its 202 check and the final return are therefore unreachable. -/
def AtlasAPI.setldap (api : AtlasAPI) (project binduser bindpass hostname : String)
    (usertodnmapping : JVal) (port : Nat) (fuel : Nat) (s : St) :
    Except PyError SetldapResult × St :=
  let thisurl := "/api/atlas/v1.0/groups/" ++ project ++ "/userSecurity/ldap/verify"
  let config : JVal := .obj [("bindUsername", .str binduser),
                             ("bindPassword", .str bindpass),
                             ("hostname", .str hostname),
                             ("port", .num port)]
  match api.post thisurl config s with
  | (.error e, s1) => (.error e, s1)
  | (.ok r, s1) =>
    match r.body.getKey "requestId" with
    | .error e => (.error e, s1)
    | .ok requestid =>
      match r.body.getKey "status" with
      | .error e => (.error e, s1)
      | .ok status0 =>
        let respurl := thisurl ++ "/" ++ requestid.pyStr
        match api.pollLoop respurl r status0 fuel s1 with
        | (.error e, s2) => (.error e, s2)
        | (.ok (rf, status), s2) =>
          if !(status.eqStr "SUCCESS") then
            match rf.body.getKey "validations" with
            | .error e => (.error e, s2)
            | .ok v => (.ok (.failure v), s2)
          else
            (.error (.nameError "true"), s2)

/-! ## Helper facts about strings and the slash-stripping loop -/

/-- Rebuilding a string from its characters is the identity. -/
theorem strMk_data (s : String) : String.mk s.data = s := rfl

/-- String concatenation acts on the underlying character lists. -/
theorem strData_append (a b : String) : (a ++ b).data = a.data ++ b.data := rfl

/-- String concatenation is associative. -/
theorem strAppend_assoc (a b c : String) : a ++ b ++ c = a ++ (b ++ c) := by
  cases a with
  | mk da =>
    cases b with
    | mk db =>
      cases c with
      | mk dc =>
        show String.mk (da ++ db ++ dc) = String.mk (da ++ (db ++ dc))
        rw [List.append_assoc]

/-- On a list of slashes only, the stripping loop hits the IndexError. -/
theorem lstripAux_all_slash (l : List Char) (h : l.all (fun c => c == '/') = true) :
    lstripSlashesAux l = .error .indexError := by
  induction l with
  | nil => rfl
  | cons c cs ih =>
    simp only [List.all_cons, Bool.and_eq_true, beq_iff_eq] at h
    simp [lstripSlashesAux, h.1, ih h.2]

/-- On a list holding a non-slash, the loop stops at the first one. -/
theorem lstripAux_nonslash (l : List Char) (h : l.any (fun c => c != '/') = true) :
    lstripSlashesAux l = .ok (l.dropWhile (fun c => c == '/')) := by
  induction l with
  | nil => simp at h
  | cons c cs ih =>
    by_cases hc : c = '/'
    · subst hc
      simp only [List.any_cons, bne_self_eq_false, Bool.false_or] at h
      simp [lstripSlashesAux, List.dropWhile, ih h]
    · have hcb : (c == '/') = false := by simp [hc]
      simp [lstripSlashesAux, List.dropWhile, hc, hcb]

/-- Stripping a URL of the shape the client builds removes exactly the one
leading slash. -/
theorem lstrip_groups (t : String) :
    lstrip ("/api/atlas/v1.0/groups/" ++ t) = .ok ("api/atlas/v1.0/groups/" ++ t) := by
  have h1 : lstripSlashesAux (("/api/atlas/v1.0/groups/" ++ t).data)
      = .ok (("api/atlas/v1.0/groups/" ++ t).data) := by
    show lstripSlashesAux ('/' :: 'a' :: ("pi/atlas/v1.0/groups/" ++ t).data)
        = .ok ('a' :: ("pi/atlas/v1.0/groups/" ++ t).data)
    simp [lstripSlashesAux]
  unfold lstrip
  rw [h1]

/-! ## Concrete fixtures shared by witnesses and counterexamples -/

/-- A client with a stored default project. -/
def wapi : AtlasAPI :=
  { orgpub := "pub", orgpriv := "priv", orgid := some "org",
    project := some "p", apiurl := "https://cloud.mongodb.com" }

/-- A client with no stored default project. -/
def wapiNoProj : AtlasAPI :=
  { orgpub := "pub", orgpriv := "priv", orgid := some "org",
    project := none, apiurl := "https://cloud.mongodb.com" }

/-- An oracle answering 200 with a null body to everything. -/
def nullEnv : Nat → HttpResponse := fun _ =>
  { status := 200, body := .null, content := "" }

/-- An empty starting state over the null oracle. -/
def st0 : St := { env := nullEnv, count := 0, trace := [] }

/-- The oracle of a project holding one cluster c1 with a two-host
connection URI. -/
def oneClusterEnv : Nat → HttpResponse := fun _ =>
  { status := 200,
    body := .obj [("results",
      .arr [.obj [("id", .str "c1"),
                  ("mongoURI", .str "host1:27017,host2:27017")]])],
    content := "" }

/-- Oracle for setldap runs: every response is 200 and carries requestId
rid1, the n-th entry of the given status list (an arbitrary terminal
outside it) and the given validations value. -/
def ldapEnv (statuses : List String) (v : JVal) : Nat → HttpResponse := fun n =>
  { status := 200,
    body := .obj [("requestId", .str "rid1"),
                  ("status", .str (statuses.getD n "DONE")),
                  ("validations", v)],
    content := "" }

/-! ## C4 -/

/-- C4: construction fails with the missing-credentials error exactly when a
credential key is absent (its effective value is None: neither supplied
explicitly nor present in the environment), and when both keys are present
it succeeds and stores them unchanged. -/
theorem C4_init_credentials (orgid project orgpub orgpriv : Option String) :
    (AtlasAPI.init orgid project orgpub orgpriv = .error .missingCredentials ↔
       orgpub = none ∨ orgpriv = none)
    ∧ (∀ pub priv,
         AtlasAPI.init orgid project (some pub) (some priv) =
           .ok { orgpub := pub, orgpriv := priv, orgid := orgid,
                 project := project, apiurl := "https://cloud.mongodb.com" }) := by
  constructor
  · cases orgpub <;> cases orgpriv <;> simp [AtlasAPI.init]
  · intro pub priv
    rfl

/-- C4 witness: a missing public key is rejected, a full pair is stored. -/
theorem C4_init_credentials_witness :
    AtlasAPI.init (some "org") none none (some "k") = .error .missingCredentials
    ∧ AtlasAPI.init (some "org") none (some "a") (some "b") =
        .ok { orgpub := "a", orgpriv := "b", orgid := some "org",
              project := none, apiurl := "https://cloud.mongodb.com" } :=
  ⟨(C4_init_credentials (some "org") none none (some "k")).1.mpr (Or.inl rfl),
   (C4_init_credentials (some "org") none (some "a") (some "b")).2 "a" "b"⟩

/-! ## C3 -/

/-- C3: the project of a scoped call resolves to the explicit argument when
one is given, else to the stored default; when neither exists, getclusters,
getclusterids and get_measurement fail with the missing-project error with
the state unchanged, hence before any network request. -/
theorem C3_project_resolution (api : AtlasAPI) :
    (∀ p, api._project (some p) = some p)
    ∧ api._project none = api.project
    ∧ (api.project = none →
        ∀ (s : St) (name granularity period : String) (host : Option String)
          (cluster : Option JVal),
          api.getclusters none s = (.error .missingProject, s)
          ∧ api.getclusterids none s = (.error .missingProject, s)
          ∧ api.get_measurement name granularity period host cluster none s =
              (.error .missingProject, s)) := by
  refine ⟨fun p => rfl, rfl, fun h s name granularity period host cluster => ?_⟩
  refine ⟨?_, ?_, ?_⟩ <;>
    simp [AtlasAPI.getclusters, AtlasAPI.getclusterids, AtlasAPI.get_measurement,
      AtlasAPI._project, h]

/-- C3 witness: the three operations on a client with no default project. -/
theorem C3_project_resolution_witness :
    wapiNoProj.getclusters none st0 = (.error .missingProject, st0)
    ∧ wapiNoProj.getclusterids none st0 = (.error .missingProject, st0)
    ∧ wapiNoProj.get_measurement "m" "PT1M" "PT1H" none none none st0 =
        (.error .missingProject, st0) :=
  (C3_project_resolution wapiNoProj).2.2 rfl st0 "m" "PT1M" "PT1H" none none

/-! ## C10 -/

/-- C10: a path of slashes only (the empty path included) makes the generic
get, post and patch fail with IndexError inside the stripping loop with the
state unchanged, hence before any request; a path holding a non-slash
character has all leading slashes stripped and is requested against the
base URL. -/
theorem C10_path_normalization (api : AtlasAPI) (pth : String) (data : JVal) (st : St) :
    (pth.data.all (fun c => c == '/') = true →
       api.get pth st = (.error .indexError, st)
       ∧ api.post pth data st = (.error .indexError, st)
       ∧ api.patch pth data st = (.error .indexError, st))
    ∧ (pth.data.any (fun c => c != '/') = true →
       lstrip pth = .ok (String.mk (pth.data.dropWhile (fun c => c == '/')))
       ∧ api.get pth st =
           (.ok (st.env st.count),
            { st with count := st.count + 1,
                      trace := st.trace ++
                        [.http { method := .GET,
                                 url := api.apiurl ++ "/" ++
                                   String.mk (pth.data.dropWhile (fun c => c == '/')),
                                 payload := none }] })
       ∧ api.post pth data st =
           (.ok (st.env st.count),
            { st with count := st.count + 1,
                      trace := st.trace ++
                        [.http { method := .POST,
                                 url := api.apiurl ++ "/" ++
                                   String.mk (pth.data.dropWhile (fun c => c == '/')),
                                 payload := some data }] })
       ∧ api.patch pth data st =
           (.ok (st.env st.count),
            { st with count := st.count + 1,
                      trace := st.trace ++
                        [.http { method := .PATCH,
                                 url := api.apiurl ++ "/" ++
                                   String.mk (pth.data.dropWhile (fun c => c == '/')),
                                 payload := some data }] })) := by
  constructor
  · intro h
    have he := lstripAux_all_slash pth.data h
    refine ⟨?_, ?_, ?_⟩ <;>
      simp [AtlasAPI.get, AtlasAPI.post, AtlasAPI.patch, lstrip, he]
  · intro h
    have he := lstripAux_nonslash pth.data h
    have hl : lstrip pth = .ok (String.mk (pth.data.dropWhile (fun c => c == '/'))) := by
      simp [lstrip, he]
    refine ⟨hl, ?_, ?_, ?_⟩ <;>
      simp [AtlasAPI.get, AtlasAPI.post, AtlasAPI.patch, hl, St.request]

/-- C10 witness: the all-slash path and a stripped path, concretely. -/
theorem C10_path_normalization_witness :
    wapi.get "///" st0 = (.error .indexError, st0)
    ∧ wapi.get "/a" st0 =
        (.ok (st0.env st0.count),
         { st0 with count := st0.count + 1,
                    trace := st0.trace ++
                      [.http { method := .GET,
                               url := wapi.apiurl ++ "/" ++
                                 String.mk ("/a".data.dropWhile (fun c => c == '/')),
                               payload := none }] }) :=
  ⟨((C10_path_normalization wapi "///" .null st0).1 (by decide)).1,
   ((C10_path_normalization wapi "/a" .null st0).2 (by decide)).2.1⟩

/-! ## C2 -/

/-- C2: evidence at the failing input.  When the verify poll ends with
status SUCCESS, the source evaluates the undefined name true while building
the PATCH body (atlas.py lines 236-237) and raises NameError: the run
errors and its trace holds the verify POST alone, so no PATCH request is
issued, no 202 check happens, and no parsed body is returned. -/
theorem C2_patch_step_name_error :
    (wapi.setldap "p" "u" "pw" "ldap.example.com" .null 636 5
        { env := ldapEnv ["SUCCESS"] .null, count := 0, trace := [] }).1
      = .error (.nameError "true")
    ∧ (wapi.setldap "p" "u" "pw" "ldap.example.com" .null 636 5
        { env := ldapEnv ["SUCCESS"] .null, count := 0, trace := [] }).2.trace
      = [.http { method := .POST,
                 url := "https://cloud.mongodb.com/api/atlas/v1.0/groups/p/userSecurity/ldap/verify",
                 payload := some (.obj [("bindUsername", .str "u"),
                                        ("bindPassword", .str "pw"),
                                        ("hostname", .str "ldap.example.com"),
                                        ("port", .num 636)]) }] :=
  ⟨rfl, rfl⟩

/-! ## C9 -/

/-- The oracle of a project with no clusters at all. -/
def emptyClustersEnv : Nat → HttpResponse := fun _ =>
  { status := 200, body := .obj [("results", .arr [])], content := "" }

/-- C9 counterexample: with an explicit project, no host, no cluster and no
stored default, a project with zero clusters makes get_measurement return
the empty list successfully, not the missing-project error the claim
predicts for this case. -/
theorem C9_empty_clusters_counterexample :
    (wapiNoProj.get_measurement "m" "PT1M" "PT1H" none none (some "p")
        { env := emptyClustersEnv, count := 0, trace := [] }).1 = .ok (.arr [])
    ∧ (wapiNoProj.get_measurement "m" "PT1M" "PT1H" none none (some "p")
        { env := emptyClustersEnv, count := 0, trace := [] }).1
        ≠ .error .missingProject :=
  ⟨rfl, fun h => Except.noConfusion h⟩

/-- C9 amended: with an explicit project, no host and no stored default, a
call with a cluster argument always fails with the missing-project error
with the state unchanged (host enumeration resolves the project from the
stored default, ignoring the explicit argument); a call with neither host
nor cluster fails the same way as soon as the clusters response decodes to
a nonempty cluster-id list. -/
theorem C9_default_project_shadows_explicit (api : AtlasAPI) (h : api.project = none)
    (name granularity period p : String) (s : St) :
    (∀ c, api.get_measurement name granularity period none (some c) (some p) s =
        (.error .missingProject, s))
    ∧ (∀ rv xs cid ids,
        (s.env s.count).status = 200 →
        (s.env s.count).body.getKey "results" = .ok rv →
        rv.asArr = .ok xs →
        clusterIds xs = .ok (cid :: ids) →
        (api.get_measurement name granularity period none none (some p) s).1 =
          .error .missingProject) := by
  constructor
  · intro c
    simp [AtlasAPI.get_measurement, AtlasAPI.gethosts, AtlasAPI.getclusters,
      AtlasAPI._project, h]
  · intro rv xs cid ids h200 hres harr hids
    simp [AtlasAPI.get_measurement, AtlasAPI.getclusterids, AtlasAPI._project,
      St.request, h200, hres, harr, hids, AtlasAPI.allClustersLoop,
      AtlasAPI.gethosts, AtlasAPI.getclusters, h]

/-- C9 witness: both amended branches on the one-cluster project. -/
theorem C9_default_project_shadows_explicit_witness :
    wapiNoProj.get_measurement "m" "PT1M" "PT1H" none (some (.str "c1")) (some "p")
        { env := oneClusterEnv, count := 0, trace := [] }
      = (.error .missingProject, { env := oneClusterEnv, count := 0, trace := [] })
    ∧ (wapiNoProj.get_measurement "m" "PT1M" "PT1H" none none (some "p")
        { env := oneClusterEnv, count := 0, trace := [] }).1 = .error .missingProject :=
  ⟨(C9_default_project_shadows_explicit wapiNoProj rfl "m" "PT1M" "PT1H" "p"
      { env := oneClusterEnv, count := 0, trace := [] }).1 (.str "c1"),
   (C9_default_project_shadows_explicit wapiNoProj rfl "m" "PT1M" "PT1H" "p"
      { env := oneClusterEnv, count := 0, trace := [] }).2
     (.arr [.obj [("id", .str "c1"), ("mongoURI", .str "host1:27017,host2:27017")]])
     [.obj [("id", .str "c1"), ("mongoURI", .str "host1:27017,host2:27017")]]
     (.str "c1") [] rfl rfl rfl rfl⟩

/-! ## C8 -/

/-- C8: getclusters issues the single clusters GET for the resolved
project; a 200 response yields the results field of the decoded body, any
other status yields the ApiError carrying that status and raw body, and in
that case the returned value is an error, never a partial result. -/
theorem C8_getclusters_response (api : AtlasAPI) (projArg : Option String) (p : String)
    (hp : api._project projArg = some p) (s : St) :
    (api.getclusters projArg s).2 =
        { s with count := s.count + 1,
                 trace := s.trace ++
                   [.http { method := .GET,
                            url := api.apiurl ++ "/api/atlas/v1.0/groups/" ++ p ++ "/clusters",
                            payload := none }] }
    ∧ ((s.env s.count).status = 200 →
        (api.getclusters projArg s).1 = (s.env s.count).body.getKey "results")
    ∧ ((s.env s.count).status ≠ 200 →
        (api.getclusters projArg s).1 =
          .error (.apiError (s.env s.count).status (s.env s.count).content)) := by
  simp only [AtlasAPI.getclusters, hp, St.request]
  refine ⟨?_, fun h200 => ?_, fun hne => ?_⟩
  · split
    · rfl
    · split <;> rfl
  · rw [if_neg (by simp [h200])]
    cases hk : (s.env s.count).body.getKey "results" <;> simp [hk]
  · rw [if_pos hne]

/-- C8 witness: a 200 response and a 500 response, concretely. -/
theorem C8_getclusters_response_witness :
    (wapi.getclusters none { env := oneClusterEnv, count := 0, trace := [] }).1 =
        (oneClusterEnv 0).body.getKey "results"
    ∧ (wapi.getclusters none
        { env := fun _ => { status := 500, body := .null, content := "oops" },
          count := 0, trace := [] }).1 = .error (.apiError 500 "oops") :=
  ⟨(C8_getclusters_response wapi none "p" rfl
      { env := oneClusterEnv, count := 0, trace := [] }).2.1 rfl,
   (C8_getclusters_response wapi none "p" rfl
      { env := fun _ => { status := 500, body := .null, content := "oops" },
        count := 0, trace := [] }).2.2 (by decide)⟩

/-! ## C6 -/

/-- The full URL of a measurements request as the client builds it: the
resolved project's processes path, the host rendered by the f-string, the
fixed port 27017, and the m/granularity/period query. -/
def measurementUrlQ (api : AtlasAPI) (p : String) (h : Option String) (query : String) : String :=
  api.apiurl ++ "/" ++
    ("api/atlas/v1.0/groups/" ++ p ++ "/processes" ++ "/" ++ pyStrOpt h ++ ":" ++ "27017"
      ++ "/measurements?" ++ query)

/-- The generic get on a URL under the groups path: one GET request against
the base URL with the single leading slash removed. -/
theorem get_under_groups (api : AtlasAPI) (t : String) (s : St) :
    api.get ("/api/atlas/v1.0/groups/" ++ t) s =
      (.ok (s.env s.count),
       { s with count := s.count + 1,
                trace := s.trace ++
                  [.http { method := .GET,
                           url := api.apiurl ++ "/" ++ ("api/atlas/v1.0/groups/" ++ t),
                           payload := none }] }) := by
  simp [AtlasAPI.get, lstrip_groups, St.request]

/-- C6: with an explicit host and a resolvable project, get_measurement
issues exactly one request, the measurements GET for that host at fixed
port 27017 with the m/granularity/period query; on a 200 response it
returns the decoded body unmodified, on any other status it fails with the
ApiError carrying that status and raw body. -/
theorem C6_measurement_single_host (api : AtlasAPI) (name granularity period h : String)
    (cluster : Option JVal) (projArg : Option String) (p : String)
    (hp : api._project projArg = some p) (s : St) :
    (api.get_measurement name granularity period (some h) cluster projArg s).2 =
        { s with count := s.count + 1,
                 trace := s.trace ++
                   [.http { method := .GET,
                            url := measurementUrlQ api p (some h)
                              ("m=" ++ name ++ "&granularity=" ++ granularity ++
                               "&period=" ++ period),
                            payload := none }] }
    ∧ ((s.env s.count).status = 200 →
        (api.get_measurement name granularity period (some h) cluster projArg s).1 =
          .ok (s.env s.count).body)
    ∧ ((s.env s.count).status ≠ 200 →
        (api.get_measurement name granularity period (some h) cluster projArg s).1 =
          .error (.apiError (s.env s.count).status (s.env s.count).content)) := by
  have h27 : toString (27017 : Nat) = "27017" := rfl
  have hurl : ("/api/atlas/v1.0/groups/" ++ p ++ "/processes") ++ "/" ++ h ++ ":" ++
        toString (27017 : Nat) ++ "/measurements?" ++
        ("m=" ++ name ++ "&granularity=" ++ granularity ++ "&period=" ++ period)
      = "/api/atlas/v1.0/groups/" ++
          (p ++ "/processes" ++ "/" ++ h ++ ":" ++ "27017" ++ "/measurements?" ++
            ("m=" ++ name ++ "&granularity=" ++ granularity ++ "&period=" ++ period)) := by
    simp [strAppend_assoc, h27]
  have key := get_under_groups api
    (p ++ "/processes" ++ "/" ++ h ++ ":" ++ "27017" ++ "/measurements?" ++
      ("m=" ++ name ++ "&granularity=" ++ granularity ++ "&period=" ++ period)) s
  simp only [AtlasAPI.get_measurement, hp, hurl, key]
  have hq : measurementUrlQ api p (some h)
      ("m=" ++ name ++ "&granularity=" ++ granularity ++ "&period=" ++ period)
      = api.apiurl ++ "/" ++
        ("api/atlas/v1.0/groups/" ++
          (p ++ "/processes" ++ "/" ++ h ++ ":" ++ "27017" ++ "/measurements?" ++
            ("m=" ++ name ++ "&granularity=" ++ granularity ++ "&period=" ++ period))) := by
    simp [measurementUrlQ, pyStrOpt, strAppend_assoc]
  refine ⟨?_, fun h200 => ?_, fun hne => ?_⟩
  · rw [hq]
    split <;> rfl
  · rw [if_neg (by simp [h200])]
  · rw [if_pos hne]

/-- C6 witness: one concrete host request under each response status. -/
theorem C6_measurement_single_host_witness :
    (wapi.get_measurement "CONNECTIONS" "PT1M" "PT1H" (some "h1") none none
        { env := oneClusterEnv, count := 0, trace := [] }).1 = .ok (oneClusterEnv 0).body
    ∧ (wapi.get_measurement "CONNECTIONS" "PT1M" "PT1H" (some "h1") none none
        { env := fun _ => { status := 404, body := .null, content := "nf" },
          count := 0, trace := [] }).1 = .error (.apiError 404 "nf") :=
  ⟨(C6_measurement_single_host wapi "CONNECTIONS" "PT1M" "PT1H" "h1" none none "p" rfl
      { env := oneClusterEnv, count := 0, trace := [] }).2.1 rfl,
   (C6_measurement_single_host wapi "CONNECTIONS" "PT1M" "PT1H" "h1" none none "p" rfl
      { env := fun _ => { status := 404, body := .null, content := "nf" },
        count := 0, trace := [] }).2.2 (by decide)⟩

/-! ## C5 -/

/-- The host extraction exactly as the spec words it, for comparison with
hostsOf from the source: filter the clusters to the given id when one is
given, split each cluster's comma-separated connection URI field, take the
hostname component of each entry, and flatten in order. -/
def specListHosts (clusters : List JVal) (cluster : Option JVal) : List (Option String) :=
  ((clusters.filter (fun c =>
      match cluster with
      | none => true
      | some cid => JVal.beq (c.getKeyD "id" .null) cid)).map
    (fun c =>
      match c.getKeyD "mongoURI" .null with
      | .str uri => (pySplit ',' uri).map parse_url_host
      | _ => [])).flatten

/-- On well-formed cluster lists (a string mongoURI everywhere, and an id
wherever the filter needs one) the source's accumulation loop computes
exactly the spec's filter-split-flatten description. -/
theorem hostsOf_eq_spec (cluster : Option JVal) :
    ∀ clusters : List JVal,
      (∀ c ∈ clusters,
          (∃ u, c.getKey "mongoURI" = .ok (.str u))
          ∧ (∀ cid, cluster = some cid → ∃ idv, c.getKey "id" = .ok idv)) →
      hostsOf clusters cluster = .ok (specListHosts clusters cluster) := by
  intro clusters
  induction clusters with
  | nil => intro _; rfl
  | cons c rest ih =>
    intro hwf
    obtain ⟨⟨u, hu⟩, hid⟩ := hwf c (List.mem_cons_self c rest)
    have ihr := ih (fun d hd => hwf d (List.mem_cons_of_mem c hd))
    have huD : c.getKeyD "mongoURI" .null = .str u := by
      simp [JVal.getKeyD, hu]
    cases cluster with
    | none =>
      simp [hostsOf, hu, ihr, specListHosts, huD, List.filter_cons]
    | some cid =>
      obtain ⟨idv, hidv⟩ := hid cid rfl
      have hD : c.getKeyD "id" .null = idv := by simp [JVal.getKeyD, hidv]
      cases hbeq : JVal.beq idv cid with
      | false =>
        simp [hostsOf, hidv, hbeq, ihr, specListHosts, hD, List.filter_cons]
      | true =>
        simp [hostsOf, hidv, hbeq, hu, ihr, specListHosts, hD, huD, List.filter_cons]

/-- C5: the host-extraction loop of gethosts agrees with the spec's
filter-split-flatten description on well-formed cluster lists, and
concretely: on the cluster list [(id c1, mongoURI host1:27017,host2:27017)]
gethosts returns the hostnames host1, host2 in order; with a clusterId
argument only clusters carrying that id contribute. -/
theorem C5_gethosts_extraction :
    (∀ (clusters : List JVal) (cluster : Option JVal),
       (∀ c ∈ clusters,
           (∃ u, c.getKey "mongoURI" = .ok (.str u))
           ∧ (∀ cid, cluster = some cid → ∃ idv, c.getKey "id" = .ok idv)) →
       hostsOf clusters cluster = .ok (specListHosts clusters cluster))
    ∧ (wapi.gethosts none { env := oneClusterEnv, count := 0, trace := [] }).1 =
        .ok [some "host1", some "host2"]
    ∧ (wapi.gethosts (some (.str "c1")) { env := oneClusterEnv, count := 0, trace := [] }).1 =
        .ok [some "host1", some "host2"]
    ∧ (wapi.gethosts (some (.str "zz")) { env := oneClusterEnv, count := 0, trace := [] }).1 =
        .ok [] :=
  ⟨fun clusters cluster h => hostsOf_eq_spec cluster clusters h, rfl, rfl, rfl⟩

/-- C5 witness: the loop-spec agreement applied on the one-cluster list. -/
theorem C5_gethosts_extraction_witness :
    hostsOf [JVal.obj [("id", .str "c1"), ("mongoURI", .str "host1:27017,host2:27017")]] none
      = .ok (specListHosts
          [JVal.obj [("id", .str "c1"), ("mongoURI", .str "host1:27017,host2:27017")]] none) :=
  C5_gethosts_extraction.1
    [JVal.obj [("id", .str "c1"), ("mongoURI", .str "host1:27017,host2:27017")]] none
    (by
      intro c hc
      simp only [List.mem_singleton] at hc
      subst hc
      exact ⟨⟨"host1:27017,host2:27017", rfl⟩, fun cid h => Option.noConfusion h⟩)

/-! ## C7 -/

/-- The decoded bodies of n consecutive oracle responses from position c. -/
def envBodies (env : Nat → HttpResponse) (c : Nat) : Nat → List JVal
  | 0 => []
  | n + 1 => (env c).body :: envBodies env (c + 1) n

/-- The per-iteration URL of the measurement loop, reassociated under the
groups prefix. -/
theorem measUrl_assoc (p q : String) (h : Option String) :
    ("/api/atlas/v1.0/groups/" ++ p ++ "/processes") ++ "/" ++ pyStrOpt h ++ ":" ++
        toString (27017 : Nat) ++ "/measurements?" ++ q
      = "/api/atlas/v1.0/groups/" ++
          (p ++ "/processes" ++ "/" ++ pyStrOpt h ++ ":" ++ "27017" ++
            "/measurements?" ++ q) := by
  have h27 : toString (27017 : Nat) = "27017" := rfl
  simp [strAppend_assoc, h27]

/-- measurementUrlQ, reassociated to the form get_under_groups produces. -/
theorem measurementUrlQ_assoc (api : AtlasAPI) (p q : String) (h : Option String) :
    measurementUrlQ api p h q
      = api.apiurl ++ "/" ++
          ("api/atlas/v1.0/groups/" ++
            (p ++ "/processes" ++ "/" ++ pyStrOpt h ++ ":" ++ "27017" ++
              "/measurements?" ++ q)) := by
  simp [measurementUrlQ, strAppend_assoc]

/-- The measurement loop under all-200 responses: one GET per host in host
order, bodies accumulated in that order. -/
theorem measLoop_ok (api : AtlasAPI) (p q : String) :
    ∀ (hs : List (Option String)) (acc : List JVal) (s : St),
      (∀ i, i < hs.length → (s.env (s.count + i)).status = 200) →
      api.measLoop ("/api/atlas/v1.0/groups/" ++ p ++ "/processes") q hs acc s =
        (.ok (acc ++ envBodies s.env s.count hs.length),
         { s with count := s.count + hs.length,
                  trace := s.trace ++ hs.map (fun h =>
                    .http { method := .GET, url := measurementUrlQ api p h q,
                            payload := none }) }) := by
  intro hs
  induction hs with
  | nil =>
    intro acc s _
    simp [AtlasAPI.measLoop, envBodies]
  | cons h rest ih =>
    intro acc s hok
    have h0 : (s.env s.count).status = 200 := by simpa using hok 0 (by simp)
    have key := get_under_groups api
      (p ++ "/processes" ++ "/" ++ pyStrOpt h ++ ":" ++ "27017" ++ "/measurements?" ++ q) s
    have hok1 : ∀ i, i < rest.length →
        (({ s with count := s.count + 1,
                    trace := s.trace ++
                      [.http { method := .GET,
                               url := api.apiurl ++ "/" ++
                                 ("api/atlas/v1.0/groups/" ++
                                   (p ++ "/processes" ++ "/" ++ pyStrOpt h ++ ":" ++ "27017" ++
                                     "/measurements?" ++ q)),
                               payload := none }] } : St).env
          (s.count + 1 + i)).status = 200 := by
      intro i hi
      have e : s.count + (i + 1) = s.count + 1 + i := by omega
      have := hok (i + 1) (by simpa using Nat.succ_lt_succ hi)
      rwa [e] at this
    have ihr := ih (acc ++ [(s.env s.count).body])
      ({ s with count := s.count + 1,
                trace := s.trace ++
                  [.http { method := .GET,
                           url := api.apiurl ++ "/" ++
                             ("api/atlas/v1.0/groups/" ++
                               (p ++ "/processes" ++ "/" ++ pyStrOpt h ++ ":" ++ "27017" ++
                                 "/measurements?" ++ q)),
                           payload := none }] } : St) hok1
    simp only [AtlasAPI.measLoop, measUrl_assoc, key]
    rw [if_neg (by simp [h0])]
    rw [ihr]
    have ec : s.count + 1 + rest.length = s.count + (rest.length + 1) := by omega
    simp [envBodies, List.append_assoc, ec, measurementUrlQ_assoc]

/-- The measurement loop aborts with the ApiError of the first non-200
response: the returned value is an error, never a partial list. -/
theorem measLoop_err (api : AtlasAPI) (p q : String) :
    ∀ (hs : List (Option String)) (j : Nat) (acc : List JVal) (s : St),
      j < hs.length →
      (∀ i, i < j → (s.env (s.count + i)).status = 200) →
      (s.env (s.count + j)).status ≠ 200 →
      (api.measLoop ("/api/atlas/v1.0/groups/" ++ p ++ "/processes") q hs acc s).1 =
        .error (.apiError (s.env (s.count + j)).status (s.env (s.count + j)).content) := by
  intro hs
  induction hs with
  | nil =>
    intro j acc s hj
    exact absurd hj (by simp)
  | cons h rest ih =>
    intro j acc s hj hok hbad
    have key := get_under_groups api
      (p ++ "/processes" ++ "/" ++ pyStrOpt h ++ ":" ++ "27017" ++ "/measurements?" ++ q) s
    simp only [AtlasAPI.measLoop, measUrl_assoc, key]
    cases j with
    | zero =>
      rw [if_pos (by simpa using hbad)]
      simp
    | succ j1 =>
      have h0 : (s.env s.count).status = 200 := by simpa using hok 0 (Nat.succ_pos j1)
      rw [if_neg (by simp [h0])]
      have hok1 : ∀ i, i < j1 →
          (({ s with count := s.count + 1,
                      trace := s.trace ++
                        [.http { method := .GET,
                                 url := api.apiurl ++ "/" ++
                                   ("api/atlas/v1.0/groups/" ++
                                     (p ++ "/processes" ++ "/" ++ pyStrOpt h ++ ":" ++ "27017" ++
                                       "/measurements?" ++ q)),
                                 payload := none }] } : St).env
            (s.count + 1 + i)).status = 200 := by
        intro i hi
        have e : s.count + (i + 1) = s.count + 1 + i := by omega
        have := hok (i + 1) (Nat.succ_lt_succ hi)
        rwa [e] at this
      have hbad1 :
          (({ s with count := s.count + 1,
                      trace := s.trace ++
                        [.http { method := .GET,
                                 url := api.apiurl ++ "/" ++
                                   ("api/atlas/v1.0/groups/" ++
                                     (p ++ "/processes" ++ "/" ++ pyStrOpt h ++ ":" ++ "27017" ++
                                       "/measurements?" ++ q)),
                                 payload := none }] } : St).env
            (s.count + 1 + j1)).status ≠ 200 := by
        have e : s.count + (j1 + 1) = s.count + 1 + j1 := by omega
        simpa [e] using hbad
      have := ih j1 (acc ++ [(s.env s.count).body])
        ({ s with count := s.count + 1,
                  trace := s.trace ++
                    [.http { method := .GET,
                             url := api.apiurl ++ "/" ++
                               ("api/atlas/v1.0/groups/" ++
                                 (p ++ "/processes" ++ "/" ++ pyStrOpt h ++ ":" ++ "27017" ++
                                   "/measurements?" ++ q)),
                             payload := none }] } : St)
        (by simpa using hj) hok1 hbad1
      have e : s.count + (j1 + 1) = s.count + 1 + j1 := by omega
      rw [e]
      exact this

/-- getclusters followed by the pure host extraction, as a function of the
clusters response alone. -/
def hostsFromResp (r : HttpResponse) (cluster : Option JVal) :
    Except PyError (List (Option String)) :=
  match r.body.getKey "results" with
  | .error e => .error e
  | .ok v =>
    match v.asArr with
    | .error e => .error e
    | .ok xs => hostsOf xs cluster

/-- gethosts under a 200 clusters response: one clusters GET for the stored
default project, then the pure host extraction. -/
theorem gethosts_of_resp (api : AtlasAPI) (pd : String) (hpd : api.project = some pd)
    (cluster : Option JVal) (s : St)
    (h200 : (s.env s.count).status = 200)
    (hosts : List (Option String))
    (hh : hostsFromResp (s.env s.count) cluster = .ok hosts) :
    api.gethosts cluster s =
      (.ok hosts,
       { s with count := s.count + 1,
                trace := s.trace ++
                  [.http { method := .GET,
                           url := api.apiurl ++ "/api/atlas/v1.0/groups/" ++ pd ++ "/clusters",
                           payload := none }] }) := by
  unfold hostsFromResp at hh
  simp only [AtlasAPI.gethosts, AtlasAPI.getclusters, AtlasAPI._project, hpd, St.request]
  rw [if_neg (by simp [h200])]
  cases hres : (s.env s.count).body.getKey "results" with
  | error e =>
    rw [hres] at hh
    simp at hh
  | ok rv =>
    rw [hres] at hh
    simp at hh
    cases harr : rv.asArr with
    | error e =>
      rw [harr] at hh
      simp at hh
    | ok xs =>
      rw [harr] at hh
      simp at hh
      simp [hres, harr, hh]

/-- C7: with a cluster argument and no host, get_measurement enumerates the
cluster's hosts (one clusters GET, resolved from the stored default) and
issues one measurements GET per host in the cluster's host order; when
every response is 200 it returns the decoded bodies as a list in that same
order, and a non-200 response at any position aborts the aggregation with
that response's ApiError, so no partial list is returned. -/
theorem C7_measurement_cluster_scope (api : AtlasAPI) (name granularity period : String)
    (c : JVal) (projArg : Option String) (p pd : String)
    (hp : api._project projArg = some p) (hpd : api.project = some pd)
    (s : St) (h200 : (s.env s.count).status = 200)
    (hosts : List (Option String))
    (hh : hostsFromResp (s.env s.count) (some c) = .ok hosts) :
    ((∀ i, i < hosts.length → (s.env (s.count + 1 + i)).status = 200) →
       api.get_measurement name granularity period none (some c) projArg s =
         (.ok (.arr (envBodies s.env (s.count + 1) hosts.length)),
          { s with count := s.count + 1 + hosts.length,
                   trace := s.trace ++
                     (.http { method := .GET,
                              url := api.apiurl ++ "/api/atlas/v1.0/groups/" ++ pd ++ "/clusters",
                              payload := none }
                       :: hosts.map (fun h =>
                            .http { method := .GET,
                                    url := measurementUrlQ api p h
                                      ("m=" ++ name ++ "&granularity=" ++ granularity ++
                                        "&period=" ++ period),
                                    payload := none })) }))
    ∧ (∀ j, j < hosts.length →
         (∀ i, i < j → (s.env (s.count + 1 + i)).status = 200) →
         (s.env (s.count + 1 + j)).status ≠ 200 →
         (api.get_measurement name granularity period none (some c) projArg s).1 =
           .error (.apiError (s.env (s.count + 1 + j)).status
                             (s.env (s.count + 1 + j)).content)) := by
  have hg := gethosts_of_resp api pd hpd (some c) s h200 hosts hh
  constructor
  · intro hall
    simp only [AtlasAPI.get_measurement, hp, hg]
    have hm := measLoop_ok api p
      ("m=" ++ name ++ "&granularity=" ++ granularity ++ "&period=" ++ period) hosts []
      ({ s with count := s.count + 1,
                trace := s.trace ++
                  [.http { method := .GET,
                           url := api.apiurl ++ "/api/atlas/v1.0/groups/" ++ pd ++ "/clusters",
                           payload := none }] } : St)
      (fun i hi => hall i hi)
    rw [hm]
    simp [List.append_assoc]
  · intro j hj hok hbad
    simp only [AtlasAPI.get_measurement, hp, hg]
    have hm := measLoop_err api p
      ("m=" ++ name ++ "&granularity=" ++ granularity ++ "&period=" ++ period) hosts j []
      ({ s with count := s.count + 1,
                trace := s.trace ++
                  [.http { method := .GET,
                           url := api.apiurl ++ "/api/atlas/v1.0/groups/" ++ pd ++ "/clusters",
                           payload := none }] } : St)
      hj hok hbad
    split
    · rename_i e s2 heq
      rw [heq] at hm
      simpa using hm
    · rename_i results s2 heq
      rw [heq] at hm
      simp at hm

/-- Oracle of the witness run: the clusters response first, then distinct
measurement bodies. -/
def measEnv : Nat → HttpResponse := fun n =>
  if n = 0 then oneClusterEnv 0
  else { status := 200, body := .num (Int.ofNat n), content := "" }

/-- C7 witness: the two-host cluster run returns both bodies in order. -/
theorem C7_measurement_cluster_scope_witness :
    (wapi.get_measurement "CONNECTIONS" "PT1M" "PT1H" none (some (.str "c1")) none
        { env := measEnv, count := 0, trace := [] }).1 =
      .ok (.arr (envBodies measEnv 1 2)) := by
  have h := (C7_measurement_cluster_scope wapi "CONNECTIONS" "PT1M" "PT1H" (.str "c1")
      none "p" "p" rfl rfl { env := measEnv, count := 0, trace := [] } rfl
      [some "host1", some "host2"] rfl).1 (by decide)
  rw [h]
  rfl

/-! ## C1 -/

/-- Whether an event is a PATCH request. -/
def Event.isPatch : Event → Bool
  | .http req =>
    match req.method with
    | .PATCH => true
    | _ => false
  | .sleep _ => false

/-- The k sleep-and-poll-GET pairs a PENDING run of length k produces. -/
def pollEvents (api : AtlasAPI) (u : String) : Nat → List Event
  | 0 => []
  | k + 1 =>
    .sleep 1 ::
      .http { method := .GET, url := api.apiurl ++ "/" ++ u, payload := none } ::
        pollEvents api u k

/-- No poll event is a PATCH. -/
theorem pollEvents_no_patch (api : AtlasAPI) (u : String) :
    ∀ k, ∀ e ∈ pollEvents api u k, e.isPatch = false := by
  intro k
  induction k with
  | zero =>
    intro e he
    simp [pollEvents] at he
  | succ k ih =>
    intro e he
    simp only [pollEvents, List.mem_cons] at he
    rcases he with h | h | h
    · subst h; rfl
    · subst h; rfl
    · exact ih e h

/-- Before the terminal entry, every status of the poll sequence is
PENDING. -/
theorem getD_pending (f d : String) :
    ∀ k i : Nat, i < k → (List.replicate k "PENDING" ++ [f]).getD i d = "PENDING" := by
  intro k
  induction k with
  | zero => intro i hi; exact absurd hi (by omega)
  | succ k ih =>
    intro i hi
    have hc : (List.replicate (k + 1) "PENDING" ++ [f])
        = "PENDING" :: (List.replicate k "PENDING" ++ [f]) := by
      simp [List.replicate]
    cases i with
    | zero => rw [hc]; rfl
    | succ j =>
      rw [hc, List.getD_cons_succ]
      exact ih j (by omega)

/-- The terminal entry of the poll sequence. -/
theorem getD_last (f d : String) :
    ∀ k : Nat, (List.replicate k "PENDING" ++ [f]).getD k d = f := by
  intro k
  induction k with
  | zero => rfl
  | succ k ih =>
    have hc : (List.replicate (k + 1) "PENDING" ++ [f])
        = "PENDING" :: (List.replicate k "PENDING" ++ [f]) := by
      simp [List.replicate]
    rw [hc, List.getD_cons_succ]
    exact ih

/-- The generic post on a URL under the groups path: one POST request with
the JSON payload against the base URL with the single leading slash
removed. -/
theorem post_under_groups (api : AtlasAPI) (t : String) (d : JVal) (s : St) :
    api.post ("/api/atlas/v1.0/groups/" ++ t) d s =
      (.ok (s.env s.count),
       { s with count := s.count + 1,
                trace := s.trace ++
                  [.http { method := .POST,
                           url := api.apiurl ++ "/" ++ ("api/atlas/v1.0/groups/" ++ t),
                           payload := some d }] }) := by
  simp [AtlasAPI.post, lstrip_groups, St.request]

/-- The poll loop on a status sequence with k PENDING readings followed by
a terminal one: exactly k sleep-and-GET pairs, stopping at the terminal
status, the response in scope at exit being the k-th poll response (the
initial response when k = 0). -/
theorem pollLoop_settles (api : AtlasAPI) (respurl u : String)
    (hurl : lstrip respurl = .ok u) :
    ∀ (k : Nat) (σ : Nat → JVal) (fuel : Nat) (r : HttpResponse) (s : St),
      k ≤ fuel →
      (∀ i, i < k → (σ i).eqStr "PENDING" = true) →
      (∀ i, i < k → (s.env (s.count + i)).body.getKey "status" = .ok (σ (i + 1))) →
      (σ k).eqStr "PENDING" = false →
      api.pollLoop respurl r (σ 0) fuel s =
        (.ok ((if k = 0 then r else s.env (s.count + k - 1)), σ k),
         { s with count := s.count + k, trace := s.trace ++ pollEvents api u k }) := by
  intro k
  induction k with
  | zero =>
    intro σ fuel r s _ _ _ hstop
    cases fuel with
    | zero => simp [AtlasAPI.pollLoop, hstop, pollEvents]
    | succ fuel1 => simp [AtlasAPI.pollLoop, hstop, pollEvents]
  | succ k ih =>
    intro σ fuel r s hfuel hpend henv hstop
    have h0 : (σ 0).eqStr "PENDING" = true := hpend 0 (Nat.succ_pos k)
    cases fuel with
    | zero => exact absurd hfuel (by omega)
    | succ fuel1 =>
      have hget : api.get respurl (s.sleepSt 1) =
          (.ok (s.env s.count),
           { s with count := s.count + 1,
                    trace := s.trace ++
                      [.sleep 1,
                       .http { method := .GET, url := api.apiurl ++ "/" ++ u,
                               payload := none }] }) := by
        simp [AtlasAPI.get, hurl, St.request, St.sleepSt]
      have hst0 : (s.env s.count).body.getKey "status" = .ok (σ 1) := by
        simpa using henv 0 (Nat.succ_pos k)
      have hpend1 : ∀ i, i < k → (σ (i + 1)).eqStr "PENDING" = true :=
        fun i hi => hpend (i + 1) (Nat.succ_lt_succ hi)
      have henv1 : ∀ i, i < k →
          (s.env (s.count + 1 + i)).body.getKey "status" = .ok (σ (i + 1 + 1)) := by
        intro i hi
        have e : s.count + (i + 1) = s.count + 1 + i := by omega
        have h2 := henv (i + 1) (Nat.succ_lt_succ hi)
        rwa [e] at h2
      have hrec := ih (fun i => σ (i + 1)) fuel1 (s.env s.count)
        ({ s with count := s.count + 1,
                  trace := s.trace ++
                    [.sleep 1,
                     .http { method := .GET, url := api.apiurl ++ "/" ++ u,
                             payload := none }] } : St)
        (by omega) hpend1 henv1 hstop
      simp only [AtlasAPI.pollLoop, h0, if_true, hget, hst0, hrec]
      cases k with
      | zero => simp [pollEvents]
      | succ m =>
        have e1 : s.count + 1 + (m + 1) - 1 = s.count + (m + 1 + 1) - 1 := by omega
        have e2 : s.count + 1 + (m + 1) = s.count + (m + 1 + 1) := by omega
        simp [pollEvents, e1, e2, List.append_assoc]

/-- The full verify URL, as post builds it from the verify path. -/
def ldapVerifyUrl (api : AtlasAPI) (project : String) : String :=
  api.apiurl ++ "/" ++ ("api/atlas/v1.0/groups/" ++ (project ++ "/userSecurity/ldap/verify"))

/-- The poll URL path under the API root, with the requestId rid1. -/
def ldapPollTail (project : String) : String :=
  "api/atlas/v1.0/groups/" ++ (project ++ ("/userSecurity/ldap/verify" ++ ("/" ++ "rid1")))

/-- C1: the verify poll of setldap behaves as a poll-until-settled
protocol.  For a status sequence of k PENDING readings followed by a
terminal status f, the run issues the verify POST and then exactly k
sleep-and-GET pairs against verifyUrl/requestId; no PATCH request occurs
anywhere in the trace; a terminal status other than SUCCESS returns the
failure pair carrying the validations value; the terminal status SUCCESS
proceeds into the PATCH step, where the run stops with the NameError
documented at C2 before any request.  At k = 2 with terminal SUCCESS this
is exactly 2 poll GETs after the initial POST. -/
theorem C1_setldap_poll_protocol (api : AtlasAPI)
    (project binduser bindpass hostname : String) (m : JVal) (port : Nat)
    (k fuel : Nat) (f : String) (v : JVal)
    (hf : f ≠ "PENDING") (hfuel : k ≤ fuel) :
    (api.setldap project binduser bindpass hostname m port fuel
        { env := ldapEnv (List.replicate k "PENDING" ++ [f]) v,
          count := 0, trace := [] }).2.trace
      = .http { method := .POST, url := ldapVerifyUrl api project,
                payload := some (.obj [("bindUsername", .str binduser),
                                       ("bindPassword", .str bindpass),
                                       ("hostname", .str hostname),
                                       ("port", .num port)]) }
          :: pollEvents api (ldapPollTail project) k
    ∧ (∀ e ∈ (api.setldap project binduser bindpass hostname m port fuel
          { env := ldapEnv (List.replicate k "PENDING" ++ [f]) v,
            count := 0, trace := [] }).2.trace, e.isPatch = false)
    ∧ (f ≠ "SUCCESS" →
        (api.setldap project binduser bindpass hostname m port fuel
          { env := ldapEnv (List.replicate k "PENDING" ++ [f]) v,
            count := 0, trace := [] }).1 = .ok (.failure v))
    ∧ (f = "SUCCESS" →
        (api.setldap project binduser bindpass hostname m port fuel
          { env := ldapEnv (List.replicate k "PENDING" ++ [f]) v,
            count := 0, trace := [] }).1 = .error (.nameError "true")) := by
  have hthis : ("/api/atlas/v1.0/groups/" ++ project ++ "/userSecurity/ldap/verify")
      = "/api/atlas/v1.0/groups/" ++ (project ++ "/userSecurity/ldap/verify") := by
    simp [strAppend_assoc]
  have hrid : ∀ n, (ldapEnv (List.replicate k "PENDING" ++ [f]) v n).body.getKey "requestId"
      = .ok (.str "rid1") := fun n => rfl
  have hstat : ∀ n, (ldapEnv (List.replicate k "PENDING" ++ [f]) v n).body.getKey "status"
      = .ok (.str ((List.replicate k "PENDING" ++ [f]).getD n "DONE")) := fun n => rfl
  have hval : ∀ n, (ldapEnv (List.replicate k "PENDING" ++ [f]) v n).body.getKey "validations"
      = .ok v := fun n => rfl
  have hresp : ("/api/atlas/v1.0/groups/" ++ (project ++ "/userSecurity/ldap/verify")) ++ "/"
        ++ JVal.pyStr (.str "rid1")
      = "/api/atlas/v1.0/groups/" ++
          (project ++ ("/userSecurity/ldap/verify" ++ ("/" ++ "rid1"))) := by
    simp [JVal.pyStr, strAppend_assoc]
  have hurl : lstrip ("/api/atlas/v1.0/groups/" ++
        (project ++ ("/userSecurity/ldap/verify" ++ ("/" ++ "rid1"))))
      = .ok (ldapPollTail project) :=
    lstrip_groups (project ++ ("/userSecurity/ldap/verify" ++ ("/" ++ "rid1")))
  have hpost := post_under_groups api (project ++ "/userSecurity/ldap/verify")
      (.obj [("bindUsername", .str binduser), ("bindPassword", .str bindpass),
             ("hostname", .str hostname), ("port", .num port)])
      { env := ldapEnv (List.replicate k "PENDING" ++ [f]) v, count := 0, trace := [] }
  have hpend : ∀ i, i < k →
      (JVal.str ((List.replicate k "PENDING" ++ [f]).getD i "DONE")).eqStr "PENDING" = true := by
    intro i hi
    rw [getD_pending f "DONE" k i hi]
    rfl
  have henv : ∀ i, i < k →
      ((ldapEnv (List.replicate k "PENDING" ++ [f]) v) (1 + i)).body.getKey "status"
        = .ok (.str ((List.replicate k "PENDING" ++ [f]).getD (i + 1) "DONE")) := by
    intro i hi
    rw [hstat (1 + i), Nat.add_comm 1 i]
  have hstop : (JVal.str ((List.replicate k "PENDING" ++ [f]).getD k "DONE")).eqStr
      "PENDING" = false := by
    rw [getD_last f "DONE" k]
    simp [JVal.eqStr, hf]
  have hpoll : api.pollLoop
      ("/api/atlas/v1.0/groups/" ++ (project ++ ("/userSecurity/ldap/verify" ++ ("/" ++ "rid1"))))
      (ldapEnv (List.replicate k "PENDING" ++ [f]) v 0)
      (.str ((List.replicate k "PENDING" ++ [f]).getD 0 "DONE")) fuel
      ({ env := ldapEnv (List.replicate k "PENDING" ++ [f]) v, count := 1,
         trace := [.http { method := .POST,
                           url := api.apiurl ++ "/" ++
                             ("api/atlas/v1.0/groups/" ++ (project ++ "/userSecurity/ldap/verify")),
                           payload := some (.obj [("bindUsername", .str binduser),
                                                  ("bindPassword", .str bindpass),
                                                  ("hostname", .str hostname),
                                                  ("port", .num port)]) }] } : St) =
      (.ok ((if k = 0 then ldapEnv (List.replicate k "PENDING" ++ [f]) v 0
             else ldapEnv (List.replicate k "PENDING" ++ [f]) v (1 + k - 1)),
            .str ((List.replicate k "PENDING" ++ [f]).getD k "DONE")),
       { env := ldapEnv (List.replicate k "PENDING" ++ [f]) v,
         count := 1 + k,
         trace := .http { method := .POST,
                          url := api.apiurl ++ "/" ++
                            ("api/atlas/v1.0/groups/" ++ (project ++ "/userSecurity/ldap/verify")),
                          payload := some (.obj [("bindUsername", .str binduser),
                                                 ("bindPassword", .str bindpass),
                                                 ("hostname", .str hostname),
                                                 ("port", .num port)]) }
           :: pollEvents api (ldapPollTail project) k }) :=
    pollLoop_settles api
      ("/api/atlas/v1.0/groups/" ++ (project ++ ("/userSecurity/ldap/verify" ++ ("/" ++ "rid1"))))
      (ldapPollTail project) hurl k
      (fun i => JVal.str ((List.replicate k "PENDING" ++ [f]).getD i "DONE"))
      fuel
      (ldapEnv (List.replicate k "PENDING" ++ [f]) v 0)
      ({ env := ldapEnv (List.replicate k "PENDING" ++ [f]) v, count := 1,
         trace := [.http { method := .POST,
                           url := api.apiurl ++ "/" ++
                             ("api/atlas/v1.0/groups/" ++ (project ++ "/userSecurity/ldap/verify")),
                           payload := some (.obj [("bindUsername", .str binduser),
                                                  ("bindPassword", .str bindpass),
                                                  ("hostname", .str hostname),
                                                  ("port", .num port)]) }] } : St)
      hfuel hpend henv hstop
  have hrf : ∀ n1 n2 : Nat,
      ((if k = 0 then ldapEnv (List.replicate k "PENDING" ++ [f]) v n1
        else ldapEnv (List.replicate k "PENDING" ++ [f]) v n2)).body.getKey "validations"
        = .ok v := by
    intro n1 n2
    split
    · exact hval n1
    · exact hval n2
  have hlast : (List.replicate k "PENDING" ++ [f]).getD k "DONE" = f := getD_last f "DONE" k
  have hrun : api.setldap project binduser bindpass hostname m port fuel
      { env := ldapEnv (List.replicate k "PENDING" ++ [f]) v, count := 0, trace := [] } =
      ((if f == "SUCCESS" then .error (.nameError "true") else .ok (.failure v)),
       { env := ldapEnv (List.replicate k "PENDING" ++ [f]) v,
         count := 1 + k,
         trace := .http { method := .POST, url := ldapVerifyUrl api project,
                          payload := some (.obj [("bindUsername", .str binduser),
                                                 ("bindPassword", .str bindpass),
                                                 ("hostname", .str hostname),
                                                 ("port", .num port)]) }
           :: pollEvents api (ldapPollTail project) k }) := by
    simp only [AtlasAPI.setldap, hthis, hpost, hrid, hstat, hresp, Nat.zero_add,
      List.nil_append, hpoll, hlast]
    cases hb : f == "SUCCESS" with
    | true =>
      simp [hb, JVal.eqStr, ldapVerifyUrl]
    | false =>
      simp [hb, JVal.eqStr, hrf, ldapVerifyUrl]
  refine ⟨?_, ?_, ?_, ?_⟩
  · simp only [hrun]
  · intro e he
    simp only [hrun, List.mem_cons] at he
    rcases he with h | h
    · subst h; rfl
    · exact pollEvents_no_patch api (ldapPollTail project) k e h
  · intro hns
    have hbf : (f == "SUCCESS") = false := by simp [hns]
    simp only [hrun, hbf]
    rfl
  · intro hs
    have hbt : (f == "SUCCESS") = true := by simp [hs]
    simp only [hrun, hbt]
    rfl

/-- C1 witness: the PENDING, PENDING, SUCCESS sequence issues exactly two
poll GETs after the POST and reaches the PATCH step; the PENDING, FAILED
sequence returns the failure pair carrying the validations value. -/
theorem C1_setldap_poll_protocol_witness :
    (wapi.setldap "p" "u" "pw" "ldap.example.com" .null 636 3
        { env := ldapEnv (List.replicate 2 "PENDING" ++ ["SUCCESS"]) (.arr [.str "diag"]),
          count := 0, trace := [] }).2.trace
      = .http { method := .POST, url := ldapVerifyUrl wapi "p",
                payload := some (.obj [("bindUsername", .str "u"),
                                       ("bindPassword", .str "pw"),
                                       ("hostname", .str "ldap.example.com"),
                                       ("port", .num 636)]) }
          :: pollEvents wapi (ldapPollTail "p") 2
    ∧ (wapi.setldap "p" "u" "pw" "ldap.example.com" .null 636 3
        { env := ldapEnv (List.replicate 2 "PENDING" ++ ["SUCCESS"]) (.arr [.str "diag"]),
          count := 0, trace := [] }).1 = .error (.nameError "true")
    ∧ (wapi.setldap "p" "u" "pw" "ldap.example.com" .null 636 3
        { env := ldapEnv (List.replicate 1 "PENDING" ++ ["FAILED"]) (.arr [.str "diag"]),
          count := 0, trace := [] }).1 = .ok (.failure (.arr [.str "diag"])) :=
  ⟨(C1_setldap_poll_protocol wapi "p" "u" "pw" "ldap.example.com" .null 636 2 3 "SUCCESS"
      (.arr [.str "diag"]) (by decide) (by decide)).1,
   (C1_setldap_poll_protocol wapi "p" "u" "pw" "ldap.example.com" .null 636 2 3 "SUCCESS"
      (.arr [.str "diag"]) (by decide) (by decide)).2.2.2 rfl,
   (C1_setldap_poll_protocol wapi "p" "u" "pw" "ldap.example.com" .null 636 1 3 "FAILED"
      (.arr [.str "diag"]) (by decide) (by decide)).2.2.1 (by decide)⟩
